import Mathlib

/-!
Shallow embedding of `mbedtls_transport.c` (TLS transport layer bridging an
abstract socket interface to the mbedTLS engine).

External collaborators (the socket interface and the mbedTLS engine) are
modelled as an oracle record `Env` supplying the result of each external
call.  Observable interactions with the outside world (socket close / alloc /
setsockopt / connect-by-name, handshake-step invocations, close-notify, and
each engine resource release) are recorded as an event list, so that claims
about "no socket I/O", "closed before reallocated", "released at most once"
become statements about the produced traces.

Machine integers: the C `int`/`int32_t` return codes are modelled as `Int`
(no arithmetic close to overflow occurs in the translated code); the mbedTLS
and errno constants keep their numeric values from mbedTLS / newlib.
-/

namespace MbedtlsTransport

/-- Constant `MBEDTLS_ERR_SSL_WANT_READ` = -0x6900. -/
def MBEDTLS_ERR_SSL_WANT_READ : Int := -26880

/-- Constant `MBEDTLS_ERR_SSL_WANT_WRITE` = -0x6880. -/
def MBEDTLS_ERR_SSL_WANT_WRITE : Int := -26752

/-- Constant `MBEDTLS_ERR_SSL_TIMEOUT` = -0x6800. -/
def MBEDTLS_ERR_SSL_TIMEOUT : Int := -26624

/-- Constant `MBEDTLS_ERR_NET_CONN_RESET` = -0x0050. -/
def MBEDTLS_ERR_NET_CONN_RESET : Int := -80

/-- Constant `MBEDTLS_ERR_NET_SEND_FAILED` = -0x004E. -/
def MBEDTLS_ERR_NET_SEND_FAILED : Int := -78

/-- Constant `MBEDTLS_ERR_NET_RECV_FAILED` = -0x004C. -/
def MBEDTLS_ERR_NET_RECV_FAILED : Int := -76

/-- Constant `MBEDTLS_SSL_VERIFY_NONE` (peer certificate verification disabled). -/
def MBEDTLS_SSL_VERIFY_NONE : Nat := 0

/-- Constant `MBEDTLS_SSL_VERIFY_REQUIRED` (peer certificate verification required). -/
def MBEDTLS_SSL_VERIFY_REQUIRED : Nat := 2

/-- newlib `EINTR`. -/
def EINTR : Int := 4

/-- newlib `EAGAIN` (equal to `EWOULDBLOCK`, so the `#if EAGAIN != EWOULDBLOCK`
guard in the source compiles the `EAGAIN` case away; the classification is the
same either way). -/
def EAGAIN : Int := 11

/-- newlib `EWOULDBLOCK`. -/
def EWOULDBLOCK : Int := 11

/-- newlib `EPIPE`. -/
def EPIPE : Int := 32

/-- newlib `ECONNRESET`. -/
def ECONNRESET : Int := 104

/-- Status type `TlsTransportStatus_t` from `mbedtls_transport.h`. -/
inductive TlsTransportStatus where
  | TLS_TRANSPORT_SUCCESS
  | TLS_TRANSPORT_INVALID_PARAMETER
  | TLS_TRANSPORT_INSUFFICIENT_MEMORY
  | TLS_TRANSPORT_INVALID_CREDENTIALS
  | TLS_TRANSPORT_HANDSHAKE_FAILED
  | TLS_TRANSPORT_INTERNAL_ERROR
  | TLS_TRANSPORT_CONNECT_FAILURE
  deriving DecidableEq, Repr

/-- Credentials type `NetworkCredentials_t`: nullable buffers are `Option`; byte contents are
irrelevant to the control flow (parsing results come from the engine oracle),
so buffers are bare `List Nat`. -/
structure NetworkCredentials where
  pRootCa : Option (List Nat)
  rootCaSize : Nat
  pClientCert : Option (List Nat)
  clientCertSize : Nat
  pPrivateKey : Option (List Nat)
  privateKeySize : Nat
  pAlpnProtos : Option (List String)
  disableSni : Bool
  deriving DecidableEq, Repr

/-- Observable settings accumulated into `mbedtls_ssl_config` /
`mbedtls_ssl_context` by the configuration calls of the source.
`authmode = none` means `mbedtls_ssl_conf_authmode` was never called. -/
structure SslConfig where
  authmode : Option Nat
  rngSet : Bool
  certProfileSet : Bool
  caChainSet : Bool
  ownCertSet : Bool
  alpnSet : Bool
  hostnameSet : Bool
  maxFragSet : Bool
  deriving DecidableEq, Repr

/-- The all-zero `SslConfig` (state after `mbedtls_ssl_config_init`). -/
def zeroSslConfig : SslConfig :=
  { authmode := none, rngSet := false, certProfileSet := false,
    caChainSet := false, ownCertSet := false, alpnSet := false,
    hostnameSet := false, maxFragSet := false }

/-- Context type `TLSContext_t`.  Each engine-owned sub-structure is tracked by a `…Live`
flag meaning "currently holds engine-allocated resources" (set when the
corresponding parse / setup / init call succeeds, cleared by the matching
`mbedtls_*_free`, which is a no-op on an already-freed or still-zeroed
structure).  `sockCtx` is the opaque socket handle (`pxSocketContext`),
`none` = `NULL`.  `hasSockIf` records whether `pxSocketInterface` is
non-null. -/
structure TLSContext where
  config : SslConfig
  sslLive : Bool
  cfgLive : Bool
  rootCaLive : Bool
  clientCertLive : Bool
  privKeyLive : Bool
  entropyLive : Bool
  drbgLive : Bool
  sockCtx : Option Nat
  hasSockIf : Bool
  deriving DecidableEq, Repr

/-- The fully zeroed context produced by `memset(pxTLSContext, 0, …)`. -/
def zeroTLSContext : TLSContext :=
  { config := zeroSslConfig, sslLive := false, cfgLive := false,
    rootCaLive := false, clientCertLive := false, privKeyLive := false,
    entropyLive := false, drbgLive := false, sockCtx := none,
    hasSockIf := false }

/-- A freshly allocated context: zeroed except for the stored socket
interface. -/
def freshContext : TLSContext := { zeroTLSContext with hasSockIf := true }

/-- Observable interactions with the socket layer and the engine. -/
inductive Event where
  | closeSock : Nat → Event
  | sockAlloc : Option Nat → Event
  | sockOpt : Nat → Event
  | connName : Nat → Event
  | closeNotify : Event
  | hsStep : Event
  | releaseSsl : Event
  | releaseRootCa : Event
  | releaseClientCert : Event
  | releasePrivKey : Event
  | releaseEntropy : Event
  | releaseDrbg : Event
  | releaseConf : Event
  deriving DecidableEq, Repr

/-- Whether an event mentions the socket handle `k`. -/
def usesHandle (k : Nat) : Event → Bool
  | .closeSock h => h = k
  | .sockAlloc (some h) => h = k
  | .sockOpt h => h = k
  | .connName h => h = k
  | _ => false

/-- Oracle for every external call the translated code makes.  A `0` result
means success for the status-returning calls; `socketAlloc` is the handle
returned by `socket()` (`none` = `NULL`); `handshakeStep i` is the result of
the `i`-th `mbedtls_ssl_handshake` invocation. -/
structure Env where
  socketAlloc : Option Nat
  setsockoptRcv : Int
  setsockoptSnd : Int
  connectName : Int
  seedResult : Int
  configDefaults : Int
  parseRootCa : Int
  parseClientCert : Int
  parsePrivKey : Int
  confOwnCert : Int
  alpnResult : Int
  setHostname : Int
  maxFragResult : Int
  sslSetup : Int
  handshakeStep : Nat → Int
  closeNotify : Int

/-! ## I/O adapter callbacks (`mbedtls_ssl_send` / `mbedtls_ssl_recv`) -/

/-- The BIO send callback: result of the underlying socket `send` plus the
newlib `errno` value observed when that result is negative. -/
def mbedtls_ssl_send (sockResult : Int) (errnoVal : Int) : Int :=
  if sockResult < 0 then
    if errnoVal = EINTR ∨ errnoVal = EAGAIN ∨ errnoVal = EWOULDBLOCK then
      MBEDTLS_ERR_SSL_WANT_WRITE
    else if errnoVal = EPIPE ∨ errnoVal = ECONNRESET then
      MBEDTLS_ERR_NET_CONN_RESET
    else
      MBEDTLS_ERR_NET_SEND_FAILED
  else
    sockResult

/-- The BIO recv callback: result of the underlying socket `recv` plus the
newlib `errno` value observed when that result is negative. -/
def mbedtls_ssl_recv (sockResult : Int) (errnoVal : Int) : Int :=
  if sockResult < 0 then
    if errnoVal = EINTR ∨ errnoVal = EAGAIN ∨ errnoVal = EWOULDBLOCK then
      MBEDTLS_ERR_SSL_WANT_READ
    else if errnoVal = EPIPE ∨ errnoVal = ECONNRESET then
      MBEDTLS_ERR_NET_CONN_RESET
    else
      MBEDTLS_ERR_NET_RECV_FAILED
  else
    sockResult

/-! ## Steady-state transfer (`mbedtls_transport_recv` / `mbedtls_transport_send`) -/

/-- Model of `mbedtls_transport_recv` as a function of the `mbedtls_ssl_read` result:
timeout / want-read / want-write are normalized to `0`; everything else
(including other negative codes) is returned unchanged. -/
def mbedtls_transport_recv (engineResult : Int) : Int :=
  if engineResult = MBEDTLS_ERR_SSL_TIMEOUT ∨
     engineResult = MBEDTLS_ERR_SSL_WANT_READ ∨
     engineResult = MBEDTLS_ERR_SSL_WANT_WRITE then
    0
  else
    engineResult

/-- Model of `mbedtls_transport_send` as a function of the `mbedtls_ssl_write` result:
timeout / want-read / want-write are normalized to `0`; everything else
(including other negative codes) is returned unchanged. -/
def mbedtls_transport_send (engineResult : Int) : Int :=
  if engineResult = MBEDTLS_ERR_SSL_TIMEOUT ∨
     engineResult = MBEDTLS_ERR_SSL_WANT_READ ∨
     engineResult = MBEDTLS_ERR_SSL_WANT_WRITE then
    0
  else
    engineResult

/-! ## Context lifecycle helpers -/

/-- Model of `tlsContextInit`: (re-)initializes the ssl config, the certificate and key
structures and the ssl context to their empty state.  No resources are
released by the underlying `mbedtls_*_init` calls, so re-initializing a live
context leaks (no release events), exactly as in the source. -/
def tlsContextInit (ctx : TLSContext) : TLSContext :=
  { ctx with
    config := zeroSslConfig, sslLive := false, cfgLive := false,
    rootCaLive := false, clientCertLive := false, privKeyLive := false }

/-- Model of `tlsContextFree`: unconditionally calls the seven `mbedtls_*_free`
functions (ssl, root CA, client cert, private key, entropy, DRBG, config, in
source order).  Each free releases resources — and emits a release event —
only when the structure currently holds any; freeing an already-freed or
still-zeroed structure is a no-op, as in mbedTLS. -/
def tlsContextFree (ctx : TLSContext) : TLSContext × List Event :=
  ({ ctx with
     sslLive := false, rootCaLive := false, clientCertLive := false,
     privKeyLive := false, entropyLive := false, drbgLive := false,
     cfgLive := false },
   (if ctx.sslLive then [Event.releaseSsl] else []) ++
   (if ctx.rootCaLive then [Event.releaseRootCa] else []) ++
   (if ctx.clientCertLive then [Event.releaseClientCert] else []) ++
   (if ctx.privKeyLive then [Event.releasePrivKey] else []) ++
   (if ctx.entropyLive then [Event.releaseEntropy] else []) ++
   (if ctx.drbgLive then [Event.releaseDrbg] else []) ++
   (if ctx.cfgLive then [Event.releaseConf] else []))

/-- Model of `setRootCa`: parses the root CA (result from the oracle) and, on success,
installs it as the CA chain of the ssl config. -/
def setRootCa (env : Env) (ctx : TLSContext) : Int × TLSContext :=
  if env.parseRootCa = 0 then
    (0, { ctx with
          rootCaLive := true,
          config := { ctx.config with caChainSet := true } })
  else
    (env.parseRootCa, ctx)

/-- Model of `setClientCertificate`: parses the client certificate. -/
def setClientCertificate (env : Env) (ctx : TLSContext) : Int × TLSContext :=
  if env.parseClientCert = 0 then
    (0, { ctx with clientCertLive := true })
  else
    (env.parseClientCert, ctx)

/-- Model of `setPrivateKey`: parses the client private key. -/
def setPrivateKey (env : Env) (ctx : TLSContext) : Int × TLSContext :=
  if env.parsePrivKey = 0 then
    (0, { ctx with privKeyLive := true })
  else
    (env.parsePrivKey, ctx)

/-- Model of `setCredentials`: assigns the default certificate profile, calls
`mbedtls_ssl_conf_authmode` with `MBEDTLS_SSL_VERIFY_NONE` (the
`MBEDTLS_SSL_VERIFY_REQUIRED` call is commented out in the source under a
`TODO FIXME` note), binds the RNG and the certificate profile, parses the
root CA, and — when both a client certificate and a private key are supplied
— parses both and binds them via `mbedtls_ssl_conf_own_cert`. -/
def setCredentials (env : Env) (ctx : TLSContext)
    (creds : NetworkCredentials) : Int × TLSContext :=
  let ctx := { ctx with
    config := { ctx.config with
      certProfileSet := true,
      authmode := some MBEDTLS_SSL_VERIFY_NONE, rngSet := true } }
  let r := setRootCa env ctx
  if creds.pClientCert ≠ none ∧ creds.pPrivateKey ≠ none then
    let r := if r.1 = 0 then setClientCertificate env r.2 else r
    let r := if r.1 = 0 then setPrivateKey env r.2 else r
    if r.1 = 0 then
      (env.confOwnCert,
       { r.2 with config := { r.2.config with ownCertSet := env.confOwnCert = 0 } })
    else r
  else r

/-- Model of `setOptionalConfigurations`: best-effort ALPN, SNI (unless disabled) and
maximum-fragment-length configuration; failures are only logged and never
affect the return status (the function is `void`). -/
def setOptionalConfigurations (env : Env) (ctx : TLSContext)
    (creds : NetworkCredentials) : TLSContext :=
  let ctx := if creds.pAlpnProtos ≠ none ∧ env.alpnResult = 0 then
      { ctx with config := { ctx.config with alpnSet := true } }
    else ctx
  let ctx := if creds.disableSni = false ∧ env.setHostname = 0 then
      { ctx with config := { ctx.config with hostnameSet := true } }
    else ctx
  if env.maxFragResult = 0 then
    { ctx with config := { ctx.config with maxFragSet := true } }
  else ctx

/-- Model of `tlsSetup`: initializes the context structures, applies
`mbedtls_ssl_config_defaults` (failure ⇒ `INSUFFICIENT_MEMORY`), then the
credentials (failure ⇒ `INVALID_CREDENTIALS`), then the optional
configurations. -/
def tlsSetup (env : Env) (ctx : TLSContext)
    (creds : NetworkCredentials) : TlsTransportStatus × TLSContext :=
  let ctx := tlsContextInit ctx
  if env.configDefaults ≠ 0 then
    (.TLS_TRANSPORT_INSUFFICIENT_MEMORY, ctx)
  else
    let ctx := { ctx with cfgLive := true }
    let r := setCredentials env ctx creds
    if r.1 ≠ 0 then
      (.TLS_TRANSPORT_INVALID_CREDENTIALS, r.2)
    else
      (.TLS_TRANSPORT_SUCCESS, setOptionalConfigurations env r.2 creds)

/-- The `do { … } while (WANT_READ || WANT_WRITE)` handshake loop: `step i` is
the result of the `i`-th `mbedtls_ssl_handshake` call.  Returns the final
engine code together with the number of invocations performed; `none` when
`fuel` runs out before the loop exits (the C loop is unbounded). -/
def tlsHandshakeLoop (step : Nat → Int) : Nat → Nat → Option (Int × Nat)
  | 0, _ => none
  | fuel + 1, i =>
    let e := step i
    if e = MBEDTLS_ERR_SSL_WANT_READ ∨ e = MBEDTLS_ERR_SSL_WANT_WRITE then
      match tlsHandshakeLoop step fuel (i + 1) with
      | none => none
      | some (c, n) => some (c, n + 1)
    else
      some (e, 1)

/-- Model of `tlsHandshake`: `mbedtls_ssl_setup` (failure ⇒ `INTERNAL_ERROR`), then
`mbedtls_ssl_set_bio` binding `mbedtls_ssl_send` / `mbedtls_ssl_recv`, then
the handshake loop; a nonzero final code ⇒ `HANDSHAKE_FAILED`. -/
def tlsHandshake (fuel : Nat) (env : Env) (ctx : TLSContext) :
    Option (TlsTransportStatus × TLSContext × List Event) :=
  if env.sslSetup ≠ 0 then
    some (.TLS_TRANSPORT_INTERNAL_ERROR, ctx, [])
  else
    let ctx := { ctx with sslLive := true }
    match tlsHandshakeLoop env.handshakeStep fuel 0 with
    | none => none
    | some (c, n) =>
      if c ≠ 0 then
        some (.TLS_TRANSPORT_HANDSHAKE_FAILED, ctx, List.replicate n Event.hsStep)
      else
        some (.TLS_TRANSPORT_SUCCESS, ctx, List.replicate n Event.hsStep)

/-- Model of `initMbedtls`: sets the threading hooks, initializes entropy and DRBG
(the entropy source itself is added by the platform's `rng_alt.c`, so the
local error stays `0`), then seeds the DRBG; seed failure ⇒
`INTERNAL_ERROR`.  The entropy and DRBG structures are live from their init
calls on, regardless of the seed result. -/
def initMbedtls (env : Env) (ctx : TLSContext) : TlsTransportStatus × TLSContext :=
  let ctx := { ctx with entropyLive := true, drbgLive := true }
  if env.seedResult ≠ 0 then
    (.TLS_TRANSPORT_INTERNAL_ERROR, ctx)
  else
    (.TLS_TRANSPORT_SUCCESS, ctx)

/-! ## Exported operations -/

/-- Model of `mbedtls_transport_allocate`.  The local `pxTLSContext` is declared
without an initializer; when the socket interface is `NULL` the `malloc` is
skipped and the subsequent `pxTLSContext == NULL` test reads that
uninitialized pointer.  `garbageNonNull` models whether the stack garbage
happens to be a non-null value.  On a non-null pointer the code zeroes the
block and stores the (possibly `NULL`) interface. -/
def mbedtls_transport_allocate (sockIfPresent : Bool) (mallocOk : Bool)
    (garbageNonNull : Bool) : Option TLSContext :=
  let pNonNull := if sockIfPresent then mallocOk else garbageNonNull
  if pNonNull then
    some { zeroTLSContext with hasSockIf := sockIfPresent }
  else
    none

/-- The trailing `if (returnStatus != TLS_TRANSPORT_SUCCESS)` cleanup block of
`mbedtls_transport_connect`: on failure, `tlsContextFree` releases the engine
structures and then the socket, if open, is closed and nulled; on success
nothing is released. -/
def connectCleanup (st : TlsTransportStatus) (ctx : TLSContext)
    (evs : List Event) :
    Option (TlsTransportStatus × TLSContext × List Event) :=
  if st ≠ .TLS_TRANSPORT_SUCCESS then
    let rF := tlsContextFree ctx
    match rF.1.sockCtx with
    | some h =>
      some (st, { rF.1 with sockCtx := none },
            evs ++ rF.2 ++ [Event.closeSock h])
    | none =>
      some (st, rF.1, evs ++ rF.2)
  else
    some (st, ctx, evs)

/-- The stages of `mbedtls_transport_connect` from the `setsockopt` calls to
the final cleanup, operating on the context in which `pxSocketContext` has
already been replaced by the fresh `socket()` result and with the status
accumulated by the parameter validation and the socket allocation.  Each
stage runs only while the status is still `SUCCESS`; on any failure the
cleanup frees the engine structures and then closes and nulls the socket. -/
def connectStages (fuel : Nat) (env : Env) (ctx : TLSContext)
    (st : TlsTransportStatus) (creds : Option NetworkCredentials) :
    Option (TlsTransportStatus × TLSContext × List Event) :=
  -- setsockopt stage (SO_RCVTIMEO / SO_SNDTIMEO, results or-ed together)
  let r1 : TlsTransportStatus × List Event :=
    if st = .TLS_TRANSPORT_SUCCESS then
      match ctx.sockCtx with
      | some h =>
        if Int.lor env.setsockoptRcv env.setsockoptSnd ≠ 0 then
          (.TLS_TRANSPORT_INVALID_PARAMETER, [Event.sockOpt h, Event.sockOpt h])
        else
          (.TLS_TRANSPORT_SUCCESS, [Event.sockOpt h, Event.sockOpt h])
      | none => (st, [])
    else (st, [])
  -- transport-level connect-by-name stage
  let r2 : TlsTransportStatus × List Event :=
    if r1.1 = .TLS_TRANSPORT_SUCCESS then
      match ctx.sockCtx with
      | some h =>
        if env.connectName ≠ 0 then
          (.TLS_TRANSPORT_CONNECT_FAILURE, [Event.connName h])
        else
          (.TLS_TRANSPORT_SUCCESS, [Event.connName h])
      | none => (r1.1, [])
    else (r1.1, [])
  -- RNG bootstrap
  let r3 : TlsTransportStatus × TLSContext :=
    if r2.1 = .TLS_TRANSPORT_SUCCESS then initMbedtls env ctx else (r2.1, ctx)
  -- TLS contexts and credentials
  let r4 : TlsTransportStatus × TLSContext :=
    if r3.1 = .TLS_TRANSPORT_SUCCESS then
      match creds with
      | some cr => tlsSetup env r3.2 cr
      | none => (r3.1, r3.2)
    else (r3.1, r3.2)
  -- TLS handshake
  let r5 : Option (TlsTransportStatus × TLSContext × List Event) :=
    if r4.1 = .TLS_TRANSPORT_SUCCESS then tlsHandshake fuel env r4.2
    else some (r4.1, r4.2, [])
  match r5 with
  | none => none
  | some (st5, ctx5, evHs) =>
    connectCleanup st5 ctx5 (r1.2 ++ r2.2 ++ evHs)

/-- The parameter-validation if-chain at the top of
`mbedtls_transport_connect`: null hostname or null credentials (the null
context dereferences the context before this check — undefined behavior, so
the model takes the context by value), then a null trust anchor, each yield
`INVALID_PARAMETER`. -/
def connectParamCheck (pHostName : Option String)
    (creds : Option NetworkCredentials) : TlsTransportStatus :=
  match creds with
  | none => .TLS_TRANSPORT_INVALID_PARAMETER
  | some cr =>
    if pHostName = none then .TLS_TRANSPORT_INVALID_PARAMETER
    else if cr.pRootCa = none then .TLS_TRANSPORT_INVALID_PARAMETER
    else .TLS_TRANSPORT_SUCCESS

/-- Model of `mbedtls_transport_connect`.  The C function dereferences
`pxTLSContext->pxSocketInterface` before any null check, so a `NULL` context
is undefined behavior; the model therefore takes the context by value.
Parameter validation (null hostname, null credentials, null root CA) sets
`INVALID_PARAMETER` but does not return: the function still closes any
previously connected socket, allocates a new one (a `NULL` result overwrites
the status with `INTERNAL_ERROR`), and only then consults the status for the
remaining stages. -/
def mbedtls_transport_connect (fuel : Nat) (env : Env) (ctx : TLSContext)
    (pHostName : Option String) (port : Nat)
    (creds : Option NetworkCredentials) :
    Option (TlsTransportStatus × TLSContext × List Event) :=
  let st0 : TlsTransportStatus := connectParamCheck pHostName creds
  -- close the socket if it has previously been connected
  let rC : TLSContext × List Event :=
    match ctx.sockCtx with
    | some old => ({ ctx with sockCtx := none }, [Event.closeSock old])
    | none => (ctx, [])
  -- allocate a new socket
  let ctx1 : TLSContext := { rC.1 with sockCtx := env.socketAlloc }
  let st1 : TlsTransportStatus :=
    if env.socketAlloc = none then .TLS_TRANSPORT_INTERNAL_ERROR else st0
  match connectStages fuel env ctx1 st1 creds with
  | none => none
  | some (st, ctx', evs) =>
    some (st, ctx', rC.2 ++ Event.sockAlloc env.socketAlloc :: evs)

/-- Model of `mbedtls_transport_disconnect` on a non-null context: one
`mbedtls_ssl_close_notify` attempt whose result is only logged (want-read /
want-write expressly ignored, never retried), then the socket is closed and
nulled if open, then `tlsContextFree`. -/
def mbedtls_transport_disconnect (env : Env) (ctx : TLSContext) :
    TLSContext × List Event :=
  let _ := env.closeNotify
  let rS : TLSContext × List Event :=
    match ctx.sockCtx with
    | some h => ({ ctx with sockCtx := none }, [Event.closeSock h])
    | none => (ctx, [])
  let rF := tlsContextFree rS.1
  (rF.1, Event.closeNotify :: (rS.2 ++ rF.2))

/-! ## Helper lemmas -/

theorem tlsContextFree_fst (ctx : TLSContext) :
    (tlsContextFree ctx).1 =
      { ctx with
        sslLive := false, rootCaLive := false, clientCertLive := false,
        privKeyLive := false, entropyLive := false, drbgLive := false,
        cfgLive := false } := rfl

theorem tlsContextFree_count_closeNotify (ctx : TLSContext) :
    List.count Event.closeNotify (tlsContextFree ctx).2 = 0 := by
  simp only [tlsContextFree, List.count_append]
  split_ifs <;> simp

theorem mbedtls_transport_disconnect_fst (env : Env) (ctx : TLSContext) :
    (mbedtls_transport_disconnect env ctx).1 =
      { ctx with
        sockCtx := none, sslLive := false, rootCaLive := false,
        clientCertLive := false, privKeyLive := false, entropyLive := false,
        drbgLive := false, cfgLive := false } := by
  rcases ctx with ⟨cfg, ssl, cfgl, rca, cc, pk, ent, drbg, sock, hsif⟩
  cases sock <;> rfl

theorem mbedtls_transport_disconnect_nodup (env : Env) (ctx : TLSContext) :
    ((mbedtls_transport_disconnect env ctx).2).Nodup := by
  rcases ctx with ⟨cfg, ssl, cfgl, rca, cc, pk, ent, drbg, sock, hsif⟩
  cases sock <;>
    simp only [mbedtls_transport_disconnect, tlsContextFree] <;>
    split_ifs <;> simp

theorem mbedtls_transport_disconnect_count_closeNotify (env : Env)
    (ctx : TLSContext) :
    List.count Event.closeNotify (mbedtls_transport_disconnect env ctx).2 = 1 := by
  rcases ctx with ⟨cfg, ssl, cfgl, rca, cc, pk, ent, drbg, sock, hsif⟩
  cases sock <;> simp only [mbedtls_transport_disconnect, tlsContextFree] <;>
    split_ifs <;> simp

theorem mbedtls_transport_disconnect_events_of_clean (env : Env)
    (ctx : TLSContext) (hsock : ctx.sockCtx = none)
    (hssl : ctx.sslLive = false) (hrca : ctx.rootCaLive = false)
    (hcc : ctx.clientCertLive = false) (hpk : ctx.privKeyLive = false)
    (hent : ctx.entropyLive = false) (hdrbg : ctx.drbgLive = false)
    (hcfg : ctx.cfgLive = false) :
    (mbedtls_transport_disconnect env ctx).2 = [Event.closeNotify] := by
  rcases ctx with ⟨cfg, ssl, cfgl, rca, cc, pk, ent, drbg, sock, hsif⟩
  simp only at hsock hssl hrca hcc hpk hent hdrbg hcfg
  subst hsock hssl hrca hcc hpk hent hdrbg hcfg
  rfl

theorem tlsHandshakeLoop_run (step : Nat → Int) :
    ∀ (N i : Nat), (∀ j, j < N → step (i + j) = MBEDTLS_ERR_SSL_WANT_READ) →
      ¬(step (i + N) = MBEDTLS_ERR_SSL_WANT_READ ∨
        step (i + N) = MBEDTLS_ERR_SSL_WANT_WRITE) →
      tlsHandshakeLoop step (N + 1) i = some (step (i + N), N + 1) := by
  have hunf : ∀ (f i : Nat), tlsHandshakeLoop step (f + 1) i =
      (if step i = MBEDTLS_ERR_SSL_WANT_READ ∨
          step i = MBEDTLS_ERR_SSL_WANT_WRITE then
        match tlsHandshakeLoop step f (i + 1) with
        | none => none
        | some (c, m) => some (c, m + 1)
      else some (step i, 1)) := fun _ _ => rfl
  intro N
  induction N with
  | zero =>
    intro i _ hdone
    rw [hunf]
    rw [if_neg (by simpa using hdone)]
    simp
  | succ n ih =>
    intro i hw hdone
    have h0 : step i = MBEDTLS_ERR_SSL_WANT_READ := by
      have := hw 0 (Nat.succ_pos n)
      simpa using this
    have hw' : ∀ j, j < n → step (i + 1 + j) = MBEDTLS_ERR_SSL_WANT_READ := by
      intro j hj
      have h := hw (j + 1) (by omega)
      have harr : i + (j + 1) = i + 1 + j := by omega
      rwa [harr] at h
    have hdone' : ¬(step (i + 1 + n) = MBEDTLS_ERR_SSL_WANT_READ ∨
        step (i + 1 + n) = MBEDTLS_ERR_SSL_WANT_WRITE) := by
      have harr : i + (n + 1) = i + 1 + n := by omega
      rwa [harr] at hdone
    have hrec := ih (i + 1) hw' hdone'
    have harr : i + 1 + n = i + (n + 1) := by omega
    rw [hunf, if_pos (Or.inl h0), hrec, harr]

theorem connectStages_fail (fuel : Nat) (env : Env) (ctx : TLSContext)
    (st : TlsTransportStatus) (creds : Option NetworkCredentials)
    (hst : st ≠ .TLS_TRANSPORT_SUCCESS) :
    connectStages fuel env ctx st creds =
      some (st, { (tlsContextFree ctx).1 with sockCtx := none },
        (tlsContextFree ctx).2 ++
          (match ctx.sockCtx with
           | some h => [Event.closeSock h]
           | none => [])) := by
  rcases ctx with ⟨cfg, ssl, cfgl, rca, cc, pk, ent, drbg, sock, hsif⟩
  cases sock <;> simp [connectStages, connectCleanup, tlsContextFree, hst]

theorem tlsContextFree_mem (c : TLSContext) :
    ∀ e ∈ (tlsContextFree c).2,
      e = Event.releaseSsl ∨ e = Event.releaseRootCa ∨
      e = Event.releaseClientCert ∨ e = Event.releasePrivKey ∨
      e = Event.releaseEntropy ∨ e = Event.releaseDrbg ∨
      e = Event.releaseConf := by
  intro e he
  simp only [tlsContextFree, List.mem_append] at he
  rcases he with ((((((he | he) | he) | he) | he) | he) | he) <;>
    · revert he
      split <;> simp_all

theorem tlsContextFree_usesHandle (c : TLSContext) (k : Nat) :
    ∀ e ∈ (tlsContextFree c).2, usesHandle k e = false := by
  intro e he
  rcases tlsContextFree_mem c e he with rfl | rfl | rfl | rfl | rfl | rfl | rfl <;> rfl

theorem tlsContextFree_no_closeSock (c : TLSContext) (k : Nat) :
    Event.closeSock k ∉ (tlsContextFree c).2 := by
  intro he
  rcases tlsContextFree_mem c _ he with h | h | h | h | h | h | h <;> cases h

theorem initMbedtls_sockCtx (env : Env) (ctx : TLSContext) :
    ((initMbedtls env ctx).2).sockCtx = ctx.sockCtx := by
  unfold initMbedtls
  split <;> rfl

theorem setCredentials_sockCtx (env : Env) (ctx : TLSContext)
    (cr : NetworkCredentials) :
    ((setCredentials env ctx cr).2).sockCtx = ctx.sockCtx := by
  by_cases hcc : cr.pClientCert ≠ none ∧ cr.pPrivateKey ≠ none <;>
    by_cases h1 : env.parseRootCa = 0 <;>
    by_cases h2 : env.parseClientCert = 0 <;>
    by_cases h3 : env.parsePrivKey = 0 <;>
    simp [setCredentials, setRootCa, setClientCertificate, setPrivateKey,
      hcc, h1, h2, h3]

theorem setOptionalConfigurations_sockCtx (env : Env) (ctx : TLSContext)
    (cr : NetworkCredentials) :
    (setOptionalConfigurations env ctx cr).sockCtx = ctx.sockCtx := by
  unfold setOptionalConfigurations
  split_ifs <;> rfl

theorem tlsSetup_sockCtx (env : Env) (ctx : TLSContext)
    (cr : NetworkCredentials) :
    ((tlsSetup env ctx cr).2).sockCtx = ctx.sockCtx := by
  simp only [tlsSetup]
  split
  · rfl
  · split
    · rw [setCredentials_sockCtx]
      simp [tlsContextInit]
    · rw [setOptionalConfigurations_sockCtx, setCredentials_sockCtx]
      simp [tlsContextInit]

theorem tlsHandshake_cases (fuel : Nat) (env : Env) (ctx : TLSContext)
    {st5 : TlsTransportStatus} {ctx5 : TLSContext} {evs : List Event}
    (h : tlsHandshake fuel env ctx = some (st5, ctx5, evs)) :
    ctx5.sockCtx = ctx.sockCtx ∧ ∀ e ∈ evs, e = Event.hsStep := by
  unfold tlsHandshake at h
  split at h
  · obtain ⟨h1, h2, h3⟩ := by simpa using h
    subst h2 h3
    simp
  · split at h
    · cases h
    · split at h <;>
      · obtain ⟨h1, h2, h3⟩ := by simpa using h
        subst h2 h3
        constructor
        · rfl
        · intro e he
          exact List.eq_of_mem_replicate he

theorem connectCleanup_cases (st : TlsTransportStatus) (ctx : TLSContext)
    (evs : List Event) {r : TlsTransportStatus × TLSContext × List Event}
    (h : connectCleanup st ctx evs = some r) :
    r.1 = st ∧
    (st = .TLS_TRANSPORT_SUCCESS → r.2.1 = ctx ∧ r.2.2 = evs) ∧
    (st ≠ .TLS_TRANSPORT_SUCCESS → r.2.1.sockCtx = none ∧
      (∀ e ∈ r.2.2, e ∈ evs ∨
        ((∀ k, usesHandle k e = true → ctx.sockCtx = some k) ∧
         (∀ k, e ≠ Event.closeSock k ∨ ctx.sockCtx = some k)))) := by
  have hsck : ((tlsContextFree ctx).1).sockCtx = ctx.sockCtx := rfl
  by_cases hst : st = .TLS_TRANSPORT_SUCCESS
  · subst hst
    have h2 : (TlsTransportStatus.TLS_TRANSPORT_SUCCESS, ctx, evs) = r := by
      simpa [connectCleanup] using h
    subst h2
    simp
  · simp only [connectCleanup, if_pos hst] at h
    refine ⟨?_, fun hc => absurd hc hst, fun _ => ?_⟩
    · revert h
      split
      · intro h
        injection h with h1
        subst h1
        rfl
      · intro h
        injection h with h1
        subst h1
        rfl
    · revert h
      split
      · rename_i hdl heq
        intro h
        injection h with h1
        subst h1
        refine ⟨rfl, ?_⟩
        intro e he
        simp only [List.mem_append, List.mem_singleton] at he
        rcases he with (he | he) | he
        · exact Or.inl he
        · refine Or.inr ⟨?_, ?_⟩
          · intro k hk
            rw [tlsContextFree_usesHandle ctx k e he] at hk
            cases hk
          · intro k
            left
            intro hek
            subst hek
            exact tlsContextFree_no_closeSock ctx k he
        · subst he
          refine Or.inr ⟨?_, ?_⟩
          · intro k hk
            have hke : hdl = k := by simpa [usesHandle] using hk
            subst hke
            rw [← hsck]
            exact heq
          · intro k
            by_cases hek : hdl = k
            · subst hek
              right
              rw [← hsck]
              exact heq
            · left
              intro hcontra
              exact hek (by injection hcontra)
      · rename_i heq
        intro h
        injection h with h1
        subst h1
        refine ⟨heq, ?_⟩
        intro e he
        simp only [List.mem_append] at he
        rcases he with he | he
        · exact Or.inl he
        · refine Or.inr ⟨?_, ?_⟩
          · intro k hk
            rw [tlsContextFree_usesHandle ctx k e he] at hk
            cases hk
          · intro k
            left
            intro hek
            subst hek
            exact tlsContextFree_no_closeSock ctx k he

theorem frame_from_cleanup (ctx : TLSContext) {st5 : TlsTransportStatus}
    {ctx5 : TLSContext} {evAcc : List Event}
    {r : TlsTransportStatus × TLSContext × List Event}
    (h : connectCleanup st5 ctx5 evAcc = some r)
    (hsck5 : ctx5.sockCtx = ctx.sockCtx)
    (hAcc : ∀ e ∈ evAcc,
      (∀ k, usesHandle k e = true → ctx.sockCtx = some k) ∧
      (∀ k, e ≠ Event.closeSock k)) :
    (r.1 = .TLS_TRANSPORT_SUCCESS →
      r.2.1.sockCtx = ctx.sockCtx ∧ ∀ k, Event.closeSock k ∉ r.2.2) ∧
    (r.1 ≠ .TLS_TRANSPORT_SUCCESS → r.2.1.sockCtx = none) ∧
    (∀ e ∈ r.2.2, ∀ k, usesHandle k e = true → ctx.sockCtx = some k) := by
  obtain ⟨hst, hsucc, hfail⟩ := connectCleanup_cases st5 ctx5 evAcc h
  by_cases h5 : st5 = .TLS_TRANSPORT_SUCCESS
  · obtain ⟨hc, hev⟩ := hsucc h5
    refine ⟨fun _ => ⟨?_, ?_⟩, fun hne => absurd (hst.trans h5) hne, ?_⟩
    · rw [hc, hsck5]
    · intro k hk
      rw [hev] at hk
      exact (hAcc _ hk).2 k rfl
    · intro e he k hk
      rw [hev] at he
      exact (hAcc e he).1 k hk
  · obtain ⟨hnone, hmem⟩ := hfail h5
    refine ⟨fun hr => absurd (hst.symm.trans hr) h5, fun _ => hnone, ?_⟩
    intro e he k hk
    rcases hmem e he with hin | ⟨hgood, _⟩
    · exact (hAcc e hin).1 k hk
    · rw [← hsck5]
      exact hgood k hk

theorem hAcc_of_subset {ctx : TLSContext} {hdl : Nat}
    (hsock : ctx.sockCtx = some hdl) (evs : List Event)
    (hsub : ∀ e ∈ evs, e = Event.sockOpt hdl ∨ e = Event.connName hdl ∨
      e = Event.hsStep) :
    ∀ e ∈ evs, (∀ k, usesHandle k e = true → ctx.sockCtx = some k) ∧
      (∀ k, e ≠ Event.closeSock k) := by
  intro e he
  rcases hsub e he with rfl | rfl | rfl
  · refine ⟨fun k hk => ?_, fun k => by simp⟩
    have hke : hdl = k := by simpa [usesHandle] using hk
    subst hke
    exact hsock
  · refine ⟨fun k hk => ?_, fun k => by simp⟩
    have hke : hdl = k := by simpa [usesHandle] using hk
    subst hke
    exact hsock
  · exact ⟨fun k hk => by simp [usesHandle] at hk, fun k => by simp⟩

theorem hAcc_of_hsOnly {ctx : TLSContext} (evs : List Event)
    (hsub : ∀ e ∈ evs, e = Event.hsStep) :
    ∀ e ∈ evs, (∀ k, usesHandle k e = true → ctx.sockCtx = some k) ∧
      (∀ k, e ≠ Event.closeSock k) := by
  intro e he
  rcases hsub e he with rfl
  exact ⟨fun k hk => by simp [usesHandle] at hk, fun k => by simp⟩

theorem connectParamCheck_invalid (pHostName : Option String)
    (creds : Option NetworkCredentials)
    (hbad : pHostName = none ∨ creds = none ∨
      ∃ cr, creds = some cr ∧ cr.pRootCa = none) :
    connectParamCheck pHostName creds = .TLS_TRANSPORT_INVALID_PARAMETER := by
  cases creds with
  | none => rfl
  | some cr =>
    rcases hbad with rfl | hc | ⟨cr2, hcr, hrc⟩
    · simp [connectParamCheck]
    · cases hc
    · injection hcr with h2
      subst h2
      by_cases hpn : pHostName = none <;> simp [connectParamCheck, hpn, hrc]

set_option maxHeartbeats 1000000 in
theorem connectStages_frame (fuel : Nat) (env : Env) (ctx : TLSContext)
    (st : TlsTransportStatus) (creds : Option NetworkCredentials)
    {r : TlsTransportStatus × TLSContext × List Event}
    (h : connectStages fuel env ctx st creds = some r) :
    (r.1 = .TLS_TRANSPORT_SUCCESS →
      r.2.1.sockCtx = ctx.sockCtx ∧ ∀ k, Event.closeSock k ∉ r.2.2) ∧
    (r.1 ≠ .TLS_TRANSPORT_SUCCESS → r.2.1.sockCtx = none) ∧
    (∀ e ∈ r.2.2, ∀ k, usesHandle k e = true → ctx.sockCtx = some k) := by
  by_cases hst : st = .TLS_TRANSPORT_SUCCESS
  case neg =>
    have hred : connectStages fuel env ctx st creds =
        connectCleanup st ctx ([] ++ [] ++ []) := by
      simp [connectStages, hst]
    rw [hred] at h
    exact frame_from_cleanup ctx h rfl (by intro e he; simp at he)
  case pos =>
  subst hst
  cases hsock : ctx.sockCtx with
  | some hdl =>
    by_cases hlor : Int.lor env.setsockoptRcv env.setsockoptSnd = 0
    case neg =>
      have hred : connectStages fuel env ctx .TLS_TRANSPORT_SUCCESS creds =
          connectCleanup .TLS_TRANSPORT_INVALID_PARAMETER ctx
            ([Event.sockOpt hdl, Event.sockOpt hdl] ++ [] ++ []) := by
        simp [connectStages, hsock, hlor]
      rw [hred] at h
      have hres := frame_from_cleanup ctx h rfl
        (hAcc_of_subset hsock _ (by intro e he; simp at he; tauto))
      rwa [hsock] at hres
    case pos =>
    by_cases hconn : env.connectName = 0
    case neg =>
      have hred : connectStages fuel env ctx .TLS_TRANSPORT_SUCCESS creds =
          connectCleanup .TLS_TRANSPORT_CONNECT_FAILURE ctx
            ([Event.sockOpt hdl, Event.sockOpt hdl] ++ [Event.connName hdl] ++ []) := by
        simp [connectStages, hsock, hlor, hconn]
      rw [hred] at h
      have hres := frame_from_cleanup ctx h rfl
        (hAcc_of_subset hsock _ (by intro e he; simp at he; tauto))
      rwa [hsock] at hres
    case pos =>
    by_cases hinit : (initMbedtls env ctx).1 = .TLS_TRANSPORT_SUCCESS
    case neg =>
      have hred : connectStages fuel env ctx .TLS_TRANSPORT_SUCCESS creds =
          connectCleanup (initMbedtls env ctx).1 (initMbedtls env ctx).2
            ([Event.sockOpt hdl, Event.sockOpt hdl] ++ [Event.connName hdl] ++ []) := by
        simp [connectStages, hsock, hlor, hconn, hinit]
      rw [hred] at h
      have hres := frame_from_cleanup ctx h (initMbedtls_sockCtx env ctx)
        (hAcc_of_subset hsock _ (by intro e he; simp at he; tauto))
      rwa [hsock] at hres
    case pos =>
    cases creds with
    | none =>
      cases hhs : tlsHandshake fuel env (initMbedtls env ctx).2 with
      | none =>
        have hred : connectStages fuel env ctx .TLS_TRANSPORT_SUCCESS none = none := by
          simp [connectStages, hsock, hlor, hconn, hinit, hhs]
        rw [hred] at h
        cases h
      | some q =>
        obtain ⟨st5, ctx5, evHs⟩ := q
        have hred : connectStages fuel env ctx .TLS_TRANSPORT_SUCCESS none =
            connectCleanup st5 ctx5
              ([Event.sockOpt hdl, Event.sockOpt hdl] ++ [Event.connName hdl] ++ evHs) := by
          simp [connectStages, hsock, hlor, hconn, hinit, hhs]
        rw [hred] at h
        obtain ⟨hp, hev⟩ := tlsHandshake_cases fuel env _ hhs
        have hres := frame_from_cleanup ctx h (by rw [hp, initMbedtls_sockCtx])
          (hAcc_of_subset hsock _ (by
            intro e he
            simp at he
            rcases he with he | he | he
            · exact Or.inl he
            · exact Or.inr (Or.inl he)
            · exact Or.inr (Or.inr (hev e he))))
        rwa [hsock] at hres
    | some cr =>
      by_cases hts : (tlsSetup env (initMbedtls env ctx).2 cr).1 = .TLS_TRANSPORT_SUCCESS
      case neg =>
        have hred : connectStages fuel env ctx .TLS_TRANSPORT_SUCCESS (some cr) =
            connectCleanup (tlsSetup env (initMbedtls env ctx).2 cr).1
              (tlsSetup env (initMbedtls env ctx).2 cr).2
              ([Event.sockOpt hdl, Event.sockOpt hdl] ++ [Event.connName hdl] ++ []) := by
          simp [connectStages, hsock, hlor, hconn, hinit, hts]
        rw [hred] at h
        have hres := frame_from_cleanup ctx h
          (by rw [tlsSetup_sockCtx, initMbedtls_sockCtx])
          (hAcc_of_subset hsock _ (by intro e he; simp at he; tauto))
        rwa [hsock] at hres
      case pos =>
      cases hhs : tlsHandshake fuel env (tlsSetup env (initMbedtls env ctx).2 cr).2 with
      | none =>
        have hred : connectStages fuel env ctx .TLS_TRANSPORT_SUCCESS (some cr) = none := by
          simp [connectStages, hsock, hlor, hconn, hinit, hts, hhs]
        rw [hred] at h
        cases h
      | some q =>
        obtain ⟨st5, ctx5, evHs⟩ := q
        have hred : connectStages fuel env ctx .TLS_TRANSPORT_SUCCESS (some cr) =
            connectCleanup st5 ctx5
              ([Event.sockOpt hdl, Event.sockOpt hdl] ++ [Event.connName hdl] ++ evHs) := by
          simp [connectStages, hsock, hlor, hconn, hinit, hts, hhs]
        rw [hred] at h
        obtain ⟨hp, hev⟩ := tlsHandshake_cases fuel env _ hhs
        have hres := frame_from_cleanup ctx h
          (by rw [hp, tlsSetup_sockCtx, initMbedtls_sockCtx])
          (hAcc_of_subset hsock _ (by
            intro e he
            simp at he
            rcases he with he | he | he
            · exact Or.inl he
            · exact Or.inr (Or.inl he)
            · exact Or.inr (Or.inr (hev e he))))
        rwa [hsock] at hres
  | none =>
    by_cases hinit : (initMbedtls env ctx).1 = .TLS_TRANSPORT_SUCCESS
    case neg =>
      have hred : connectStages fuel env ctx .TLS_TRANSPORT_SUCCESS creds =
          connectCleanup (initMbedtls env ctx).1 (initMbedtls env ctx).2
            ([] ++ [] ++ []) := by
        simp [connectStages, hsock, hinit]
      rw [hred] at h
      have hres := frame_from_cleanup ctx h (initMbedtls_sockCtx env ctx)
        (by intro e he; simp at he)
      rwa [hsock] at hres
    case pos =>
    cases creds with
    | none =>
      cases hhs : tlsHandshake fuel env (initMbedtls env ctx).2 with
      | none =>
        have hred : connectStages fuel env ctx .TLS_TRANSPORT_SUCCESS none = none := by
          simp [connectStages, hsock, hinit, hhs]
        rw [hred] at h
        cases h
      | some q =>
        obtain ⟨st5, ctx5, evHs⟩ := q
        have hred : connectStages fuel env ctx .TLS_TRANSPORT_SUCCESS none =
            connectCleanup st5 ctx5 ([] ++ [] ++ evHs) := by
          simp [connectStages, hsock, hinit, hhs]
        rw [hred] at h
        obtain ⟨hp, hev⟩ := tlsHandshake_cases fuel env _ hhs
        have hres := frame_from_cleanup ctx h (by rw [hp, initMbedtls_sockCtx])
          (hAcc_of_hsOnly _ (by intro e he; simp at he; exact hev e he))
        rwa [hsock] at hres
    | some cr =>
      by_cases hts : (tlsSetup env (initMbedtls env ctx).2 cr).1 = .TLS_TRANSPORT_SUCCESS
      case neg =>
        have hred : connectStages fuel env ctx .TLS_TRANSPORT_SUCCESS (some cr) =
            connectCleanup (tlsSetup env (initMbedtls env ctx).2 cr).1
              (tlsSetup env (initMbedtls env ctx).2 cr).2 ([] ++ [] ++ []) := by
          simp [connectStages, hsock, hinit, hts]
        rw [hred] at h
        have hres := frame_from_cleanup ctx h
          (by rw [tlsSetup_sockCtx, initMbedtls_sockCtx])
          (by intro e he; simp at he)
        rwa [hsock] at hres
      case pos =>
      cases hhs : tlsHandshake fuel env (tlsSetup env (initMbedtls env ctx).2 cr).2 with
      | none =>
        have hred : connectStages fuel env ctx .TLS_TRANSPORT_SUCCESS (some cr) = none := by
          simp [connectStages, hsock, hinit, hts, hhs]
        rw [hred] at h
        cases h
      | some q =>
        obtain ⟨st5, ctx5, evHs⟩ := q
        have hred : connectStages fuel env ctx .TLS_TRANSPORT_SUCCESS (some cr) =
            connectCleanup st5 ctx5 ([] ++ [] ++ evHs) := by
          simp [connectStages, hsock, hinit, hts, hhs]
        rw [hred] at h
        obtain ⟨hp, hev⟩ := tlsHandshake_cases fuel env _ hhs
        have hres := frame_from_cleanup ctx h
          (by rw [hp, tlsSetup_sockCtx, initMbedtls_sockCtx])
          (hAcc_of_hsOnly _ (by intro e he; simp at he; exact hev e he))
        rwa [hsock] at hres

set_option maxHeartbeats 1000000 in
theorem connectStages_success (fuel : Nat) (env : Env) (ctx : TLSContext)
    (cr : NetworkCredentials) (hdl : Nat) (n : Nat)
    (hsock : ctx.sockCtx = some hdl)
    (hso1 : env.setsockoptRcv = 0) (hso2 : env.setsockoptSnd = 0)
    (hconn : env.connectName = 0) (hseed : env.seedResult = 0)
    (hcfgd : env.configDefaults = 0) (hrca : env.parseRootCa = 0)
    (hpcc : env.parseClientCert = 0) (hpk : env.parsePrivKey = 0)
    (hoc : env.confOwnCert = 0) (hssl : env.sslSetup = 0)
    (hloop : tlsHandshakeLoop env.handshakeStep fuel 0 = some (0, n)) :
    (connectStages fuel env ctx .TLS_TRANSPORT_SUCCESS (some cr)).map
        (fun out => (out.1, out.2.2)) =
      some (.TLS_TRANSPORT_SUCCESS,
        Event.sockOpt hdl :: Event.sockOpt hdl :: Event.connName hdl ::
          List.replicate n Event.hsStep) := by
  have hlor : Int.lor env.setsockoptRcv env.setsockoptSnd = 0 := by
    rw [hso1, hso2]
    decide
  by_cases hcc : cr.pClientCert ≠ none ∧ cr.pPrivateKey ≠ none <;>
    simp [connectStages, connectCleanup, tlsHandshake, tlsSetup, tlsContextInit,
      initMbedtls, setCredentials, setRootCa, setClientCertificate,
      setPrivateKey, setOptionalConfigurations, hsock, hlor, hconn, hseed,
      hcfgd, hrca, hpcc, hpk, hoc, hssl, hloop, hcc]

/-! ## Theorems -/

/-- C1: the claim states that `setCredentials` sets the peer-certificate
authentication mode to "verification required" by default and never applies
"disabled" unless explicitly requested.  In fact the source's
`mbedtls_ssl_conf_authmode` call under its `TODO FIXME` note passes
`MBEDTLS_SSL_VERIFY_NONE` on every invocation, for every credential set: the
negotiation policy's authentication mode after `setCredentials` is always
"disabled", never "required", with no caller opt-in involved. -/
theorem c1_authmode_always_verify_none :
    ∀ (env : Env) (ctx : TLSContext) (creds : NetworkCredentials),
      ((setCredentials env ctx creds).2).config.authmode =
        some MBEDTLS_SSL_VERIFY_NONE ∧
      MBEDTLS_SSL_VERIFY_NONE ≠ MBEDTLS_SSL_VERIFY_REQUIRED := by
  intro env ctx creds
  refine ⟨?_, by decide⟩
  by_cases hcc : creds.pClientCert ≠ none ∧ creds.pPrivateKey ≠ none <;>
    by_cases h1 : env.parseRootCa = 0 <;>
    by_cases h2 : env.parseClientCert = 0 <;>
    by_cases h3 : env.parsePrivKey = 0 <;>
    simp [setCredentials, setRootCa, setClientCertificate, setPrivateKey,
      hcc, h1, h2, h3]

/-- C3: the BIO send/recv callbacks classify the underlying socket result
exactly three ways: a nonnegative byte count is passed through unchanged;
a negative result with errno in {EINTR, EAGAIN, EWOULDBLOCK} becomes
want-write (send) / want-read (recv); a negative result with errno in
{EPIPE, ECONNRESET} becomes the connection-reset code; any other negative
result becomes the generic send-failed / recv-failed code — and the signal
codes of the three classes are pairwise distinct negative values, so no case
is conflated with another or with a byte count. -/
theorem c3_io_adapter_classification :
    ∀ r e : Int,
      (0 ≤ r → mbedtls_ssl_send r e = r ∧ mbedtls_ssl_recv r e = r) ∧
      (r < 0 → (e = EINTR ∨ e = EAGAIN ∨ e = EWOULDBLOCK) →
        mbedtls_ssl_send r e = MBEDTLS_ERR_SSL_WANT_WRITE ∧
        mbedtls_ssl_recv r e = MBEDTLS_ERR_SSL_WANT_READ) ∧
      (r < 0 → (e = EPIPE ∨ e = ECONNRESET) →
        mbedtls_ssl_send r e = MBEDTLS_ERR_NET_CONN_RESET ∧
        mbedtls_ssl_recv r e = MBEDTLS_ERR_NET_CONN_RESET) ∧
      (r < 0 → ¬(e = EINTR ∨ e = EAGAIN ∨ e = EWOULDBLOCK) →
        ¬(e = EPIPE ∨ e = ECONNRESET) →
        mbedtls_ssl_send r e = MBEDTLS_ERR_NET_SEND_FAILED ∧
        mbedtls_ssl_recv r e = MBEDTLS_ERR_NET_RECV_FAILED) ∧
      (MBEDTLS_ERR_SSL_WANT_WRITE < 0 ∧ MBEDTLS_ERR_SSL_WANT_READ < 0 ∧
       MBEDTLS_ERR_NET_CONN_RESET < 0 ∧ MBEDTLS_ERR_NET_SEND_FAILED < 0 ∧
       MBEDTLS_ERR_NET_RECV_FAILED < 0 ∧
       MBEDTLS_ERR_SSL_WANT_WRITE ≠ MBEDTLS_ERR_NET_CONN_RESET ∧
       MBEDTLS_ERR_SSL_WANT_WRITE ≠ MBEDTLS_ERR_NET_SEND_FAILED ∧
       MBEDTLS_ERR_NET_CONN_RESET ≠ MBEDTLS_ERR_NET_SEND_FAILED ∧
       MBEDTLS_ERR_SSL_WANT_READ ≠ MBEDTLS_ERR_NET_CONN_RESET ∧
       MBEDTLS_ERR_SSL_WANT_READ ≠ MBEDTLS_ERR_NET_RECV_FAILED ∧
       MBEDTLS_ERR_NET_CONN_RESET ≠ MBEDTLS_ERR_NET_RECV_FAILED) := by
  intro r e
  refine ⟨?_, ?_, ?_, ?_, by decide⟩
  · intro h
    simp [mbedtls_ssl_send, mbedtls_ssl_recv, not_lt.mpr h]
  · intro h1 h2
    simp [mbedtls_ssl_send, mbedtls_ssl_recv, h1, h2]
  · intro h1 h2
    have h3 : ¬(e = EINTR ∨ e = EAGAIN ∨ e = EWOULDBLOCK) := by
      rcases h2 with h | h <;> simp [h, EINTR, EAGAIN, EWOULDBLOCK, EPIPE, ECONNRESET]
    simp [mbedtls_ssl_send, mbedtls_ssl_recv, h1, h2, h3]
  · intro h1 h2 h3
    simp [mbedtls_ssl_send, mbedtls_ssl_recv, h1, h2, h3]

/-- Witness for C3: concrete instances of each class. -/
theorem c3_io_adapter_classification_witness :
    mbedtls_ssl_send 5 0 = 5 ∧
    mbedtls_ssl_send (-1) EINTR = MBEDTLS_ERR_SSL_WANT_WRITE ∧
    mbedtls_ssl_recv (-1) EWOULDBLOCK = MBEDTLS_ERR_SSL_WANT_READ ∧
    mbedtls_ssl_recv (-1) ECONNRESET = MBEDTLS_ERR_NET_CONN_RESET ∧
    mbedtls_ssl_send (-1) EPIPE = MBEDTLS_ERR_NET_CONN_RESET ∧
    mbedtls_ssl_send (-1) 13 = MBEDTLS_ERR_NET_SEND_FAILED ∧
    mbedtls_ssl_recv (-1) 13 = MBEDTLS_ERR_NET_RECV_FAILED :=
  ⟨((c3_io_adapter_classification 5 0).1 (by decide)).1,
   ((c3_io_adapter_classification (-1) EINTR).2.1 (by decide) (Or.inl rfl)).1,
   ((c3_io_adapter_classification (-1) EWOULDBLOCK).2.1 (by decide)
     (Or.inr (Or.inr rfl))).2,
   ((c3_io_adapter_classification (-1) ECONNRESET).2.2.1 (by decide)
     (Or.inr rfl)).2,
   ((c3_io_adapter_classification (-1) EPIPE).2.2.1 (by decide) (Or.inl rfl)).1,
   ((c3_io_adapter_classification (-1) 13).2.2.2.1 (by decide) (by decide)
     (by decide)).1,
   ((c3_io_adapter_classification (-1) 13).2.2.2.1 (by decide) (by decide)
     (by decide)).2⟩

/-- C5: after the handshake, `mbedtls_transport_recv` / `mbedtls_transport_send`
normalize an engine result of timeout / want-read / want-write to `0` (not an
error), surface any other negative engine code unchanged, and return a
nonnegative byte count unchanged. -/
theorem c5_steady_state_normalization :
    ∀ r : Int,
      ((r = MBEDTLS_ERR_SSL_TIMEOUT ∨ r = MBEDTLS_ERR_SSL_WANT_READ ∨
        r = MBEDTLS_ERR_SSL_WANT_WRITE) →
        mbedtls_transport_recv r = 0 ∧ mbedtls_transport_send r = 0) ∧
      (r < 0 → ¬(r = MBEDTLS_ERR_SSL_TIMEOUT ∨ r = MBEDTLS_ERR_SSL_WANT_READ ∨
        r = MBEDTLS_ERR_SSL_WANT_WRITE) →
        mbedtls_transport_recv r = r ∧ mbedtls_transport_send r = r) ∧
      (0 ≤ r →
        mbedtls_transport_recv r = r ∧ mbedtls_transport_send r = r) := by
  intro r
  refine ⟨?_, ?_, ?_⟩
  · intro h
    simp [mbedtls_transport_recv, mbedtls_transport_send, h]
  · intro _ h2
    simp [mbedtls_transport_recv, mbedtls_transport_send, h2]
  · intro h
    have h2 : ¬(r = MBEDTLS_ERR_SSL_TIMEOUT ∨ r = MBEDTLS_ERR_SSL_WANT_READ ∨
        r = MBEDTLS_ERR_SSL_WANT_WRITE) := by
      rintro (rfl | rfl | rfl) <;> revert h <;> decide
    simp [mbedtls_transport_recv, mbedtls_transport_send, h2]

/-- Witness for C5: concrete instances of each branch. -/
theorem c5_steady_state_normalization_witness :
    mbedtls_transport_recv MBEDTLS_ERR_SSL_WANT_READ = 0 ∧
    mbedtls_transport_send MBEDTLS_ERR_SSL_TIMEOUT = 0 ∧
    mbedtls_transport_recv (-9) = -9 ∧
    mbedtls_transport_send 17 = 17 :=
  ⟨((c5_steady_state_normalization MBEDTLS_ERR_SSL_WANT_READ).1
     (Or.inr (Or.inl rfl))).1,
   ((c5_steady_state_normalization MBEDTLS_ERR_SSL_TIMEOUT).1 (Or.inl rfl)).2,
   ((c5_steady_state_normalization (-9)).2.1 (by decide) (by decide)).1,
   ((c5_steady_state_normalization 17).2.2 (by decide)).2⟩

/-- C9: the claim states that `mbedtls_transport_allocate` returns null when
the socket interface argument is null.  In the source the local `pxTLSContext`
is declared without an initializer and the null-interface branch only logs,
so the following `pxTLSContext == NULL` test reads an uninitialized pointer:
when the stack garbage is non-null the function zeroes the pointed-to block
(a wild write), stores the null interface, and returns that non-null value
instead of null. -/
theorem c9_allocate_null_interface_garbage :
    mbedtls_transport_allocate false false true =
      some { zeroTLSContext with hasSockIf := false } ∧
    mbedtls_transport_allocate false false true ≠ none ∧
    (∀ ctx, mbedtls_transport_allocate false false true = some ctx →
      ctx.hasSockIf = false) := by
  refine ⟨rfl, by decide, ?_⟩
  intro ctx h
  simp only [mbedtls_transport_allocate, if_neg, if_pos] at h
  cases h
  rfl

/-- Witness for C9: the inner implication at the concrete returned context. -/
theorem c9_allocate_null_interface_garbage_witness :
    ({ zeroTLSContext with hasSockIf := false } : TLSContext).hasSockIf = false :=
  c9_allocate_null_interface_garbage.2.2 _ rfl

/-- A fully successful oracle, used to instantiate witnesses: the socket layer
hands out handle `7`, every engine call succeeds, and the handshake completes
on its first invocation. -/
def envAllOk : Env :=
  { socketAlloc := some 7, setsockoptRcv := 0, setsockoptSnd := 0,
    connectName := 0, seedResult := 0, configDefaults := 0, parseRootCa := 0,
    parseClientCert := 0, parsePrivKey := 0, confOwnCert := 0, alpnResult := 0,
    setHostname := 0, maxFragResult := 0, sslSetup := 0,
    handshakeStep := fun _ => 0, closeNotify := 0 }

/-- Hostname used in witnesses. -/
def exampleHost : String := "host"

/-- Server-auth-only credentials with a trust anchor, used in witnesses. -/
def credsServerAuth : NetworkCredentials :=
  { pRootCa := some [1], rootCaSize := 1, pClientCert := none,
    clientCertSize := 0, pPrivateKey := none, privateKeySize := 0,
    pAlpnProtos := none, disableSni := false }

/-- C6: `mbedtls_transport_disconnect` on a (non-null) context closes the
socket whenever one is open, nulls the handle, and releases every live
engine-owned resource (session state, parsed certificates and key, entropy
and DRBG state, security configuration), for every close-notify outcome the
engine can report — and the close-notify attempt is made exactly once, never
retried. -/
theorem c6_disconnect_full_teardown (env : Env) (ctx : TLSContext) :
    (∀ k, ctx.sockCtx = some k →
      Event.closeSock k ∈ (mbedtls_transport_disconnect env ctx).2) ∧
    ((mbedtls_transport_disconnect env ctx).1).sockCtx = none ∧
    ((mbedtls_transport_disconnect env ctx).1).sslLive = false ∧
    ((mbedtls_transport_disconnect env ctx).1).rootCaLive = false ∧
    ((mbedtls_transport_disconnect env ctx).1).clientCertLive = false ∧
    ((mbedtls_transport_disconnect env ctx).1).privKeyLive = false ∧
    ((mbedtls_transport_disconnect env ctx).1).entropyLive = false ∧
    ((mbedtls_transport_disconnect env ctx).1).drbgLive = false ∧
    ((mbedtls_transport_disconnect env ctx).1).cfgLive = false ∧
    (ctx.sslLive = true →
      Event.releaseSsl ∈ (mbedtls_transport_disconnect env ctx).2) ∧
    (ctx.rootCaLive = true →
      Event.releaseRootCa ∈ (mbedtls_transport_disconnect env ctx).2) ∧
    (ctx.clientCertLive = true →
      Event.releaseClientCert ∈ (mbedtls_transport_disconnect env ctx).2) ∧
    (ctx.privKeyLive = true →
      Event.releasePrivKey ∈ (mbedtls_transport_disconnect env ctx).2) ∧
    (ctx.entropyLive = true →
      Event.releaseEntropy ∈ (mbedtls_transport_disconnect env ctx).2) ∧
    (ctx.drbgLive = true →
      Event.releaseDrbg ∈ (mbedtls_transport_disconnect env ctx).2) ∧
    (ctx.cfgLive = true →
      Event.releaseConf ∈ (mbedtls_transport_disconnect env ctx).2) ∧
    List.count Event.closeNotify (mbedtls_transport_disconnect env ctx).2 = 1 := by
  refine ⟨?_, ?_, ?_, ?_, ?_, ?_, ?_, ?_, ?_, ?_, ?_, ?_, ?_, ?_, ?_, ?_,
    mbedtls_transport_disconnect_count_closeNotify env ctx⟩
  · intro k hk
    rcases ctx with ⟨cfg, ssl, cfgl, rca, cc, pk, ent, drbg, sock, hsif⟩
    simp only at hk
    subst hk
    simp [mbedtls_transport_disconnect, tlsContextFree]
  · simp [mbedtls_transport_disconnect_fst]
  · simp [mbedtls_transport_disconnect_fst]
  · simp [mbedtls_transport_disconnect_fst]
  · simp [mbedtls_transport_disconnect_fst]
  · simp [mbedtls_transport_disconnect_fst]
  · simp [mbedtls_transport_disconnect_fst]
  · simp [mbedtls_transport_disconnect_fst]
  · simp [mbedtls_transport_disconnect_fst]
  all_goals intro hlive
  all_goals rcases ctx with ⟨cfg, ssl, cfgl, rca, cc, pk, ent, drbg, sock, hsif⟩
  all_goals simp only at hlive
  all_goals subst hlive
  all_goals cases sock <;>
    simp [mbedtls_transport_disconnect, tlsContextFree]

/-- Witness for C6: a context holding socket `3` and live ssl state. -/
theorem c6_disconnect_full_teardown_witness :
    Event.closeSock 3 ∈
      (mbedtls_transport_disconnect envAllOk
        { freshContext with sockCtx := some 3, sslLive := true }).2 ∧
    Event.releaseSsl ∈
      (mbedtls_transport_disconnect envAllOk
        { freshContext with sockCtx := some 3, sslLive := true }).2 :=
  ⟨(c6_disconnect_full_teardown envAllOk
      { freshContext with sockCtx := some 3, sslLive := true }).1 3 rfl,
   (c6_disconnect_full_teardown envAllOk
      { freshContext with sockCtx := some 3, sslLive := true }).2.2.2.2.2.2.2.2.2.1 rfl⟩

/-- C8: a second `mbedtls_transport_disconnect` performs no second socket
close and no second engine-resource release (each closes/releases at most
once across the two calls; the second call's trace is just the close-notify
attempt), and disconnecting a freshly allocated context on which `connect`
never ran is well-defined and releases nothing. -/
theorem c8_disconnect_idempotent (env1 env2 : Env) (ctx : TLSContext) :
    (∀ k, List.count (Event.closeSock k)
        ((mbedtls_transport_disconnect env1 ctx).2 ++
         (mbedtls_transport_disconnect env2
           (mbedtls_transport_disconnect env1 ctx).1).2) ≤ 1) ∧
    (∀ e, (e = Event.releaseSsl ∨ e = Event.releaseRootCa ∨
           e = Event.releaseClientCert ∨ e = Event.releasePrivKey ∨
           e = Event.releaseEntropy ∨ e = Event.releaseDrbg ∨
           e = Event.releaseConf) →
      List.count e
        ((mbedtls_transport_disconnect env1 ctx).2 ++
         (mbedtls_transport_disconnect env2
           (mbedtls_transport_disconnect env1 ctx).1).2) ≤ 1) ∧
    (mbedtls_transport_disconnect env2
      (mbedtls_transport_disconnect env1 ctx).1).2 = [Event.closeNotify] ∧
    (mbedtls_transport_disconnect env1 freshContext).2 = [Event.closeNotify] := by
  have hclean : (mbedtls_transport_disconnect env2
      (mbedtls_transport_disconnect env1 ctx).1).2 = [Event.closeNotify] := by
    apply mbedtls_transport_disconnect_events_of_clean <;>
      simp [mbedtls_transport_disconnect_fst]
  refine ⟨?_, ?_, hclean, ?_⟩
  · intro k
    rw [List.count_append, hclean]
    have h1 := List.nodup_iff_count_le_one.mp
      (mbedtls_transport_disconnect_nodup env1 ctx) (Event.closeSock k)
    simp [h1]
  · intro e he
    rw [List.count_append, hclean]
    have h1 := List.nodup_iff_count_le_one.mp
      (mbedtls_transport_disconnect_nodup env1 ctx) e
    have h2 : List.count e [Event.closeNotify] = 0 := by
      rcases he with rfl | rfl | rfl | rfl | rfl | rfl | rfl <;> simp
    simp [h1, h2]
  · exact mbedtls_transport_disconnect_events_of_clean env1 freshContext
      rfl rfl rfl rfl rfl rfl rfl rfl

/-- Witness for C8: both quantified conjuncts at concrete inputs. -/
theorem c8_disconnect_idempotent_witness :
    List.count (Event.closeSock 3)
        ((mbedtls_transport_disconnect envAllOk
            { freshContext with sockCtx := some 3, sslLive := true }).2 ++
         (mbedtls_transport_disconnect envAllOk
           (mbedtls_transport_disconnect envAllOk
             { freshContext with sockCtx := some 3, sslLive := true }).1).2) ≤ 1 ∧
    List.count Event.releaseSsl
        ((mbedtls_transport_disconnect envAllOk
            { freshContext with sockCtx := some 3, sslLive := true }).2 ++
         (mbedtls_transport_disconnect envAllOk
           (mbedtls_transport_disconnect envAllOk
             { freshContext with sockCtx := some 3, sslLive := true }).1).2) ≤ 1 :=
  ⟨(c8_disconnect_idempotent envAllOk envAllOk
      { freshContext with sockCtx := some 3, sslLive := true }).1 3,
   (c8_disconnect_idempotent envAllOk envAllOk
      { freshContext with sockCtx := some 3, sslLive := true }).2.1
      Event.releaseSsl (Or.inl rfl)⟩

/-- C4: if the engine's handshake step returns want-read on its first N
invocations and success (0) on the next, the handshake loop invokes the step
exactly N+1 times (counted as `hsStep` events) and `connect` — with every
other stage succeeding — returns Success; and the loop stops after a single
invocation on any code other than want-read / want-write. -/
theorem c4_handshake_loop_count (N : Nat) (env : Env) (ctx : TLSContext)
    (hostName : String) (port : Nat) (cr : NetworkCredentials) (hdl : Nat)
    (halloc : env.socketAlloc = some hdl)
    (hso1 : env.setsockoptRcv = 0) (hso2 : env.setsockoptSnd = 0)
    (hconn : env.connectName = 0) (hseed : env.seedResult = 0)
    (hcfgd : env.configDefaults = 0) (hrca : env.parseRootCa = 0)
    (hpcc : env.parseClientCert = 0) (hpk : env.parsePrivKey = 0)
    (hoc : env.confOwnCert = 0) (hssl : env.sslSetup = 0)
    (hroot : cr.pRootCa ≠ none)
    (hwant : ∀ j, j < N → env.handshakeStep j = MBEDTLS_ERR_SSL_WANT_READ)
    (hdone : env.handshakeStep N = 0) :
    ((mbedtls_transport_connect (N + 1) env ctx (some hostName) port
        (some cr)).map (fun out => (out.1, List.count Event.hsStep out.2.2))) =
      some (.TLS_TRANSPORT_SUCCESS, N + 1) ∧
    (∀ (c : Int) (f : Nat),
      ¬(c = MBEDTLS_ERR_SSL_WANT_READ ∨ c = MBEDTLS_ERR_SSL_WANT_WRITE) →
      tlsHandshakeLoop (fun _ => c) (f + 1) 0 = some (c, 1)) := by
  constructor
  · have hnr : ¬(env.handshakeStep (0 + N) = MBEDTLS_ERR_SSL_WANT_READ ∨
        env.handshakeStep (0 + N) = MBEDTLS_ERR_SSL_WANT_WRITE) := by
      rw [Nat.zero_add, hdone]
      decide
    have hloop := tlsHandshakeLoop_run env.handshakeStep N 0
      (by intro j hj; rw [Nat.zero_add]; exact hwant j hj) hnr
    rw [Nat.zero_add, hdone] at hloop
    have hpc : connectParamCheck (some hostName) (some cr) =
        .TLS_TRANSPORT_SUCCESS := by
      simp [connectParamCheck, hroot]
    have hstages := connectStages_success (N + 1) env
      { (match ctx.sockCtx with
         | some old => ({ ctx with sockCtx := none }, [Event.closeSock old])
         | none => (ctx, ([] : List Event))).1 with sockCtx := env.socketAlloc }
      cr hdl (N + 1) (by simp [halloc]) hso1 hso2 hconn hseed hcfgd hrca hpcc
      hpk hoc hssl hloop
    obtain ⟨out, hout, hproj⟩ := Option.map_eq_some'.mp hstages
    obtain ⟨o1, o2, o3⟩ := out
    simp only [Prod.mk.injEq] at hproj
    obtain ⟨h1, h2⟩ := hproj
    subst h1
    subst h2
    cases hs0 : ctx.sockCtx with
    | none =>
      simp only [hs0, halloc] at hout
      simp only [mbedtls_transport_connect, hs0, halloc, hpc]
      simp [hout, List.count_replicate]
    | some old =>
      simp only [hs0, halloc] at hout
      simp only [mbedtls_transport_connect, hs0, halloc, hpc]
      simp [hout, List.count_replicate]
  · intro c f hc
    have hunf : tlsHandshakeLoop (fun _ => c) (f + 1) 0 =
        (if c = MBEDTLS_ERR_SSL_WANT_READ ∨ c = MBEDTLS_ERR_SSL_WANT_WRITE then
          match tlsHandshakeLoop (fun _ => c) f 1 with
          | none => none
          | some (d, m) => some (d, m + 1)
        else some (c, 1)) := rfl
    rw [hunf, if_neg hc]

/-- An oracle like `envAllOk` whose handshake step reports want-read twice
before succeeding, used as the C4 witness input. -/
def envWantRead2 : Env :=
  { envAllOk with handshakeStep := fun i =>
      if i < 2 then MBEDTLS_ERR_SSL_WANT_READ else 0 }

/-- Witness for C4 at N = 2: three handshake-step invocations and Success. -/
theorem c4_handshake_loop_count_witness :
    ((mbedtls_transport_connect 3 envWantRead2 freshContext (some exampleHost) 443
        (some credsServerAuth)).map
      (fun out => (out.1, List.count Event.hsStep out.2.2))) =
      some (.TLS_TRANSPORT_SUCCESS, 3) :=
  (c4_handshake_loop_count 2 envWantRead2 freshContext exampleHost 443
    credsServerAuth 7 rfl rfl rfl rfl rfl rfl rfl rfl rfl rfl rfl
    (by decide) (by decide) (by decide)).1

/-- C7: a `connect` on a context already holding an open socket closes the
old socket as its very first observable action (before the new socket is
allocated), no later event of the call touches the old handle (provided the
socket layer hands out a fresh handle), and the context's stored handle after
the call is never the old one. -/
theorem c7_reconnect_closes_old (fuel : Nat) (env : Env) (ctx : TLSContext)
    (pHostName : Option String) (port : Nat) (creds : Option NetworkCredentials)
    (old : Nat) {st : TlsTransportStatus} {ctx' : TLSContext} {evs : List Event}
    (hold : ctx.sockCtx = some old)
    (hfresh : env.socketAlloc ≠ some old)
    (hr : mbedtls_transport_connect fuel env ctx pHostName port creds =
      some (st, ctx', evs)) :
    evs.head? = some (Event.closeSock old) ∧
    (∀ e ∈ evs.tail, usesHandle old e = false) ∧
    ctx'.sockCtx ≠ some old := by
  simp only [mbedtls_transport_connect, hold] at hr
  split at hr
  · cases hr
  · rename_i st2 c2 e2 heq
    have hframe := connectStages_frame _ env _ _ creds heq
    simp only [Option.some.injEq, Prod.mk.injEq] at hr
    obtain ⟨rfl, rfl, rfl⟩ := hr
    refine ⟨rfl, ?_, ?_⟩
    · intro e he
      simp only [List.cons_append, List.nil_append, List.tail_cons,
        List.mem_cons] at he
      rcases he with rfl | he
      · cases hx : env.socketAlloc with
        | none => rfl
        | some k =>
          have hk : ¬(k = old) := fun hko => hfresh (hko ▸ hx)
          simp [usesHandle, hx, hk]
      · cases hbe : usesHandle old e
        · rfl
        · have hcontra := hframe.2.2 e he old hbe
          simp only at hcontra
          exact absurd hcontra hfresh
    · by_cases hsucc : st2 = .TLS_TRANSPORT_SUCCESS
      · have hs := (hframe.1 hsucc).1
        simp only at hs
        rw [hs]
        exact hfresh
      · have hn := hframe.2.1 hsucc
        rw [hn]
        simp

/-- Witness for C7: reconnect over old socket `3`, fresh socket `7`. -/
theorem c7_reconnect_closes_old_witness :
    ([Event.closeSock 3, Event.sockAlloc (some 7), Event.sockOpt 7,
      Event.sockOpt 7, Event.connName 7, Event.hsStep] : List Event).head? =
      some (Event.closeSock 3) ∧
    (some 7 : Option Nat) ≠ some 3 :=
  ⟨(c7_reconnect_closes_old 1 envAllOk { freshContext with sockCtx := some 3 }
      (some exampleHost) 443 (some credsServerAuth) 3 rfl (by decide) rfl).1,
   (c7_reconnect_closes_old 1 envAllOk { freshContext with sockCtx := some 3 }
      (some exampleHost) 443 (some credsServerAuth) 3 rfl (by decide) rfl).2.2⟩

/-- C10: a freshly allocated context is fully zeroed except for the stored
socket interface, so it holds no socket handle; after any `connect`, the
stored handle is null on failure, and non-null only when it is exactly the
handle allocated during that call, whose allocation event appears in the
trace with no later close of it; `disconnect` always leaves the handle
null. -/
theorem c10_socket_handle_invariant (fuel : Nat) (env : Env)
    (ctx : TLSContext) (pHostName : Option String) (port : Nat)
    (creds : Option NetworkCredentials) (mallocOk garbage : Bool) :
    (mbedtls_transport_allocate true mallocOk garbage = none ∨
     mbedtls_transport_allocate true mallocOk garbage = some freshContext) ∧
    freshContext.sockCtx = none ∧
    freshContext.config = zeroSslConfig ∧
    freshContext.sslLive = false ∧ freshContext.cfgLive = false ∧
    freshContext.rootCaLive = false ∧ freshContext.clientCertLive = false ∧
    freshContext.privKeyLive = false ∧ freshContext.entropyLive = false ∧
    freshContext.drbgLive = false ∧ freshContext.hasSockIf = true ∧
    (∀ st ctx' evs,
      mbedtls_transport_connect fuel env ctx pHostName port creds =
        some (st, ctx', evs) →
      (st ≠ .TLS_TRANSPORT_SUCCESS → ctx'.sockCtx = none) ∧
      (∀ k, ctx'.sockCtx = some k → st = .TLS_TRANSPORT_SUCCESS ∧
        env.socketAlloc = some k ∧
        ∃ pre post, evs = pre ++ Event.sockAlloc (some k) :: post ∧
          Event.closeSock k ∉ post)) ∧
    ((mbedtls_transport_disconnect env ctx).1).sockCtx = none := by
  refine ⟨?_, rfl, rfl, rfl, rfl, rfl, rfl, rfl, rfl, rfl, rfl, ?_, ?_⟩
  · cases mallocOk with
    | true => exact Or.inr rfl
    | false => exact Or.inl rfl
  · intro st ctx' evs hr
    cases hs0 : ctx.sockCtx with
    | none =>
      simp only [mbedtls_transport_connect, hs0] at hr
      split at hr
      · cases hr
      · rename_i st2 c2 e2 heq
        have hframe := connectStages_frame _ env _ _ creds heq
        simp only [Option.some.injEq, Prod.mk.injEq] at hr
        obtain ⟨rfl, rfl, rfl⟩ := hr
        constructor
        · intro hne
          exact hframe.2.1 hne
        · intro k hk
          by_cases hsucc : st2 = .TLS_TRANSPORT_SUCCESS
          · have hs := (hframe.1 hsucc).1
            simp only at hs
            rw [hs] at hk
            refine ⟨hsucc, hk, [], e2, by rw [hk], ?_⟩
            exact (hframe.1 hsucc).2 k
          · rw [hframe.2.1 hsucc] at hk
            cases hk
    | some old =>
      simp only [mbedtls_transport_connect, hs0] at hr
      split at hr
      · cases hr
      · rename_i st2 c2 e2 heq
        have hframe := connectStages_frame _ env _ _ creds heq
        simp only [Option.some.injEq, Prod.mk.injEq] at hr
        obtain ⟨rfl, rfl, rfl⟩ := hr
        constructor
        · intro hne
          exact hframe.2.1 hne
        · intro k hk
          by_cases hsucc : st2 = .TLS_TRANSPORT_SUCCESS
          · have hs := (hframe.1 hsucc).1
            simp only at hs
            rw [hs] at hk
            refine ⟨hsucc, hk, [Event.closeSock old], e2, by rw [hk], ?_⟩
            exact (hframe.1 hsucc).2 k
          · rw [hframe.2.1 hsucc] at hk
            cases hk
  · rw [mbedtls_transport_disconnect_fst]

/-- An oracle whose transport-level connect fails, used as the C10 witness
input (driving `connect` through its failure cleanup). -/
def envConnFail : Env := { envAllOk with connectName := -1 }

/-- Witness for C10: the failure-cleanup conjunct at a concrete failed
connect, and the disconnect conjunct. -/
theorem c10_socket_handle_invariant_witness :
    freshContext.sockCtx = none ∧
    ((mbedtls_transport_disconnect envConnFail freshContext).1).sockCtx = none :=
  ⟨((c10_socket_handle_invariant 1 envConnFail freshContext (some exampleHost) 443
      (some credsServerAuth) true
      true).2.2.2.2.2.2.2.2.2.2.2.1 _ _ _ rfl).1 (by decide),
   (c10_socket_handle_invariant 1 envConnFail freshContext (some exampleHost) 443
      (some credsServerAuth) true true).2.2.2.2.2.2.2.2.2.2.2.2⟩

/-- C2 (amended): for a non-null context, a `connect` whose hostname or
credentials are null, or whose credential set has a null trust anchor,
returns `INVALID_PARAMETER` when the socket allocation succeeds
(`INTERNAL_ERROR` when it fails) — but it does perform socket I/O: the
socket allocation always happens, any previously open socket is closed, and
the newly allocated socket is closed again during cleanup, leaving the
context's socket handle null.  (A null context is dereferenced before the
null check — undefined behavior — so the model takes the context by
value.) -/
theorem c2_invalid_params_still_do_io (fuel : Nat) (env : Env)
    (ctx : TLSContext) (pHostName : Option String) (port : Nat)
    (creds : Option NetworkCredentials)
    (hbad : pHostName = none ∨ creds = none ∨
      ∃ cr, creds = some cr ∧ cr.pRootCa = none) :
    (mbedtls_transport_connect fuel env ctx pHostName port creds).isSome = true ∧
    ∀ st ctx' evs,
      mbedtls_transport_connect fuel env ctx pHostName port creds =
        some (st, ctx', evs) →
      st = (if env.socketAlloc = none then
              TlsTransportStatus.TLS_TRANSPORT_INTERNAL_ERROR
            else TlsTransportStatus.TLS_TRANSPORT_INVALID_PARAMETER) ∧
      ctx'.sockCtx = none ∧
      Event.sockAlloc env.socketAlloc ∈ evs ∧
      (∀ k, env.socketAlloc = some k → Event.closeSock k ∈ evs) ∧
      (∀ old, ctx.sockCtx = some old → Event.closeSock old ∈ evs) := by
  cases halloc : env.socketAlloc with
  | none =>
    cases hs0 : ctx.sockCtx with
    | none =>
      have hred : mbedtls_transport_connect fuel env ctx pHostName port creds =
          some (.TLS_TRANSPORT_INTERNAL_ERROR,
            { (tlsContextFree { ctx with sockCtx := none }).1 with
                sockCtx := none },
            Event.sockAlloc none ::
              (tlsContextFree { ctx with sockCtx := none }).2) := by
        simp [mbedtls_transport_connect, hs0, halloc,
          connectParamCheck_invalid pHostName creds hbad, connectStages_fail]
      rw [hred]
      refine ⟨rfl, ?_⟩
      intro st ctx' evs heq
      simp only [Option.some.injEq, Prod.mk.injEq] at heq
      obtain ⟨rfl, rfl, rfl⟩ := heq
      exact ⟨by simp, rfl, by simp, by simp, by simp⟩
    | some old =>
      have hred : mbedtls_transport_connect fuel env ctx pHostName port creds =
          some (.TLS_TRANSPORT_INTERNAL_ERROR,
            { (tlsContextFree { ctx with sockCtx := none }).1 with
                sockCtx := none },
            Event.closeSock old :: Event.sockAlloc none ::
              (tlsContextFree { ctx with sockCtx := none }).2) := by
        simp [mbedtls_transport_connect, hs0, halloc,
          connectParamCheck_invalid pHostName creds hbad, connectStages_fail]
      rw [hred]
      refine ⟨rfl, ?_⟩
      intro st ctx' evs heq
      simp only [Option.some.injEq, Prod.mk.injEq] at heq
      obtain ⟨rfl, rfl, rfl⟩ := heq
      refine ⟨by simp, rfl, by simp, by simp, ?_⟩
      intro o ho
      injection ho with ho
      subst ho
      simp
  | some hdl =>
    cases hs0 : ctx.sockCtx with
    | none =>
      have hred : mbedtls_transport_connect fuel env ctx pHostName port creds =
          some (.TLS_TRANSPORT_INVALID_PARAMETER,
            { (tlsContextFree { ctx with sockCtx := some hdl }).1 with
                sockCtx := none },
            Event.sockAlloc (some hdl) ::
              ((tlsContextFree { ctx with sockCtx := some hdl }).2 ++
                [Event.closeSock hdl])) := by
        simp [mbedtls_transport_connect, hs0, halloc,
          connectParamCheck_invalid pHostName creds hbad, connectStages_fail]
      rw [hred]
      refine ⟨rfl, ?_⟩
      intro st ctx' evs heq
      simp only [Option.some.injEq, Prod.mk.injEq] at heq
      obtain ⟨rfl, rfl, rfl⟩ := heq
      refine ⟨by simp, rfl, by simp, ?_, by simp⟩
      intro k hk
      injection hk with hk
      subst hk
      simp
    | some old =>
      have hred : mbedtls_transport_connect fuel env ctx pHostName port creds =
          some (.TLS_TRANSPORT_INVALID_PARAMETER,
            { (tlsContextFree { ctx with sockCtx := some hdl }).1 with
                sockCtx := none },
            Event.closeSock old :: Event.sockAlloc (some hdl) ::
              ((tlsContextFree { ctx with sockCtx := some hdl }).2 ++
                [Event.closeSock hdl])) := by
        simp [mbedtls_transport_connect, hs0, halloc,
          connectParamCheck_invalid pHostName creds hbad, connectStages_fail]
      rw [hred]
      refine ⟨rfl, ?_⟩
      intro st ctx' evs heq
      simp only [Option.some.injEq, Prod.mk.injEq] at heq
      obtain ⟨rfl, rfl, rfl⟩ := heq
      refine ⟨by simp, rfl, by simp, ?_, ?_⟩
      · intro k hk
        injection hk with hk
        subst hk
        simp
      · intro o ho
        injection ho with ho
        subst ho
        simp

/-- Counterexample for C2 as stated: on a fresh context with a null hostname
(and otherwise valid credentials and an all-successful socket layer),
`connect` returns `INVALID_PARAMETER` but its trace is not empty — it
allocates socket `7` and closes it — contradicting "performs no socket I/O
(… no socket allocation …)". -/
theorem c2_counterexample :
    mbedtls_transport_connect 1 envAllOk freshContext none 443
        (some credsServerAuth) =
      some (.TLS_TRANSPORT_INVALID_PARAMETER, freshContext,
        [Event.sockAlloc (some 7), Event.closeSock 7]) ∧
    ([Event.sockAlloc (some 7), Event.closeSock 7] : List Event) ≠ [] := by
  exact ⟨by decide, by decide⟩

/-- Witness for C1: the authmode after a concrete `setCredentials` run. -/
theorem c1_authmode_always_verify_none_witness :
    ((setCredentials envAllOk freshContext credsServerAuth).2).config.authmode =
      some MBEDTLS_SSL_VERIFY_NONE :=
  (c1_authmode_always_verify_none envAllOk freshContext credsServerAuth).1

/-- Witness for C2 (amended) at the concrete input of the counterexample. -/
theorem c2_invalid_params_still_do_io_witness :
    (mbedtls_transport_connect 1 envAllOk freshContext none 443
      (some credsServerAuth)).isSome = true :=
  (c2_invalid_params_still_do_io 1 envAllOk freshContext none 443
    (some credsServerAuth) (Or.inl rfl)).1

end MbedtlsTransport
